import Mathlib

/-!
Verification development for `src/signals/base_signal.py`, a combinator
algebra of scalar time-domain signals.

Modelling conventions:
- Python floats are idealised as rationals (`ℚ`); the sentinel values
  `NINF`/`PINF` (numpy negative/positive infinity) used as window bounds are
  modelled by the three-constructor type `Ext` of extended rationals.
  Evaluation timestamps are finite (`ℚ`): the program is only ever called at
  ordinary time values.
- The abstract class `Signal` (window `t_start`/`t_end` plus abstract local
  rule `_signal`) becomes the constructor `BaseSignal.Signal` carrying an
  arbitrary local rule.  Its argument is `Ext`-valued because the code passes
  `t - t_start` to `_signal`, and with `t_start = NINF` that difference is the
  float `+inf`.
- Python raises exceptions; evaluation is therefore `Option`-valued, `none`
  standing for a raised exception escaping the call.  Python scalar division
  raises `ZeroDivisionError` on a zero denominator, hence the `none` branch of
  `DivisionOfSignals`.
- The arithmetic dunder methods (`__add__`, `__radd__`, ...) take an operand
  that is a signal, a numeric literal (`float | int`, with `bool` admitted
  because `isinstance(True, int)` holds in Python), or anything else, in which
  case they raise `TypeError`; they are modelled as `Except`-valued
  constructors over the operand sum type `Operand`.  The `TypeError` message
  interpolates the operator symbol and the two operand class names; the model
  records exactly those three data.
- `Const` is a dataclass deriving from the dataclass `Signal`.  Python
  dataclass inheritance keeps a re-declared field in its base-class position,
  so the generated initialiser signature is
  `Const(t_start=NINF, t_end=PINF, value=0.0)` — `t_start` first, `value`
  last.  The model's `Const` takes its arguments in that generated order.
-/

namespace Signals

/-- Extended rationals: the value space of window bounds, where the Python
code uses the floats `NINF` and `PINF` as defaults. -/
inductive Ext where
  | ninf : Ext
  | fin : ℚ → Ext
  | pinf : Ext
deriving DecidableEq

/-- Float comparison `a <= b` restricted to non-NaN values, as used by the
window gate `self.t_start <= t < self.t_end`. -/
def Ext.le : Ext → Ext → Bool
  | .ninf, _ => true
  | _, .pinf => true
  | .fin a, .fin b => decide (a ≤ b)
  | _, _ => false

/-- Float comparison `a < b` restricted to non-NaN values. -/
def Ext.lt : Ext → Ext → Bool
  | _, .ninf => false
  | .pinf, _ => false
  | .ninf, _ => true
  | .fin a, .fin b => decide (a < b)
  | .fin _, .pinf => true

/-- The float subtraction `t - t_start` performed by `Signal.__call__` before
calling the local rule: a finite `t` minus a possibly infinite bound. -/
def Ext.subFin (t : ℚ) : Ext → Ext
  | .fin s => .fin (t - s)
  | .ninf => .pinf
  | .pinf => .ninf

/-- The signal expression tree.  Constructors are named after the classes of
`base_signal.py`: the four composite classes hold two operand signals; the
abstract windowed class `Signal` holds the window `[t_start, t_end)` and its
kind-specific local rule `_signal` (abstract in the source, hence an arbitrary
function here). -/
inductive BaseSignal where
  | Signal (t_start t_end : Ext) (rule : Ext → ℚ)
  | SumOfSignals (lhs rhs : BaseSignal)
  | DifferenceOfSignals (lhs rhs : BaseSignal)
  | ProductOfSignals (lhs rhs : BaseSignal)
  | DivisionOfSignals (lhs rhs : BaseSignal)

/-- `Const`, in the order of the dataclass-generated initialiser
`Const(t_start=NINF, t_end=PINF, value=0.0)`: a windowed signal whose local
rule `_signal` returns `self.value` regardless of its argument.  The Python
defaults are `Ext.ninf`, `Ext.pinf`, `0`; every call site below spells the
defaulted arguments out explicitly. -/
def Const (t_start : Ext) (t_end : Ext) (value : ℚ) : BaseSignal :=
  BaseSignal.Signal t_start t_end (fun _ => value)

/-- Evaluation at one timestamp: each class's `__call__`.  A windowed node
gates on `t_start <= t < t_end` and shifts into window-local time; composites
recursively evaluate both operands and combine.  `none` models a raised
exception: Python float/int division raises `ZeroDivisionError` on a zero
denominator, and an exception in an operand propagates out of the composite's
call. -/
def eval : BaseSignal → ℚ → Option ℚ
  | .Signal ts te f, t =>
    if Ext.le ts (Ext.fin t) && Ext.lt (Ext.fin t) te then
      some (f (Ext.subFin t ts))
    else
      some 0
  | .SumOfSignals a b, t =>
    match eval a t, eval b t with
    | some x, some y => some (x + y)
    | _, _ => none
  | .DifferenceOfSignals a b, t =>
    match eval a t, eval b t with
    | some x, some y => some (x - y)
    | _, _ => none
  | .ProductOfSignals a b, t =>
    match eval a t, eval b t with
    | some x, some y => some (x * y)
    | _, _ => none
  | .DivisionOfSignals a b, t =>
    match eval a t, eval b t with
    | some x, some y => if y = 0 then none else some (x / y)
    | _, _ => none

/-- `BaseSignal.eval_on`: the batch evaluator
`np.array([self.__call__(t_i) for t_i in t])`.  The comprehension runs left to
right and the first raised exception escapes the whole call, hence the
`Option` threading. -/
def eval_on (s : BaseSignal) (ts : List ℚ) : Option (List ℚ) :=
  match ts with
  | [] => some []
  | t :: rest =>
    match eval s t, eval_on s rest with
    | some v, some vs => some (v :: vs)
    | _, _ => none

/-- The runtime type of the `other` operand of a dunder arithmetic method:
a signal node, a numeric literal (`float | int`), a `bool` (admitted by the
`isinstance(other, (float, int))` check because `bool` is a subtype of `int`;
`True` behaves as `1` and `False` as `0` in arithmetic), or a value of any
other type, recorded by its type name. -/
inductive Operand where
  | sig (s : BaseSignal)
  | num (x : ℚ)
  | boolean (b : Bool)
  | other (ty : String)

/-- The Python class name of a node, as interpolated by `type(...)` into the
`TypeError` messages. -/
def className : BaseSignal → String
  | .Signal _ _ _ => "Signal"
  | .SumOfSignals _ _ => "SumOfSignals"
  | .DifferenceOfSignals _ _ => "DifferenceOfSignals"
  | .ProductOfSignals _ _ => "ProductOfSignals"
  | .DivisionOfSignals _ _ => "DivisionOfSignals"

/-- The data of a raised `TypeError`: every message reads
`"... Operand {op} was called for types: {lhsTy} {op} {rhsTy}"`, naming the
attempted operator and both operand types in operand order. -/
structure TypeErr where
  op : String
  lhsTy : String
  rhsTy : String
deriving DecidableEq

/-- `BaseSignal.__add__`: a signal operand is used as is, a numeric literal is
coerced via `Const(value=other)` (so window `(NINF, PINF)`), a `bool` passes
the numeric check carrying `1`/`0`, and anything else raises `TypeError`
naming `+` and the types `type(self)`, `type(other)`. -/
def add (self : BaseSignal) (other : Operand) : Except TypeErr BaseSignal :=
  match other with
  | .sig s => .ok (.SumOfSignals self s)
  | .num x => .ok (.SumOfSignals self (Const Ext.ninf Ext.pinf x))
  | .boolean b => .ok (.SumOfSignals self (Const Ext.ninf Ext.pinf (if b then 1 else 0)))
  | .other ty => .error ⟨"+", className self, ty⟩

/-- `BaseSignal.__radd__`: literally `return self + other`. -/
def radd (self : BaseSignal) (other : Operand) : Except TypeErr BaseSignal :=
  add self other

/-- `BaseSignal.__mul__`. -/
def mul (self : BaseSignal) (other : Operand) : Except TypeErr BaseSignal :=
  match other with
  | .sig s => .ok (.ProductOfSignals self s)
  | .num x => .ok (.ProductOfSignals self (Const Ext.ninf Ext.pinf x))
  | .boolean b => .ok (.ProductOfSignals self (Const Ext.ninf Ext.pinf (if b then 1 else 0)))
  | .other ty => .error ⟨"*", className self, ty⟩

/-- `BaseSignal.__rmul__`: literally `return self * other`. -/
def rmul (self : BaseSignal) (other : Operand) : Except TypeErr BaseSignal :=
  mul self other

/-- `BaseSignal.__sub__`: builds `DifferenceOfSignals(self, coerced other)`. -/
def sub (self : BaseSignal) (other : Operand) : Except TypeErr BaseSignal :=
  match other with
  | .sig s => .ok (.DifferenceOfSignals self s)
  | .num x => .ok (.DifferenceOfSignals self (Const Ext.ninf Ext.pinf x))
  | .boolean b => .ok (.DifferenceOfSignals self (Const Ext.ninf Ext.pinf (if b then 1 else 0)))
  | .other ty => .error ⟨"-", className self, ty⟩

/-- `BaseSignal.__rsub__`: builds `DifferenceOfSignals(coerced other, self)`,
keeping the reflected literal on the left; its `TypeError` interpolates the
types in the order `type(other) - type(self)`. -/
def rsub (self : BaseSignal) (other : Operand) : Except TypeErr BaseSignal :=
  match other with
  | .sig s => .ok (.DifferenceOfSignals s self)
  | .num x => .ok (.DifferenceOfSignals (Const Ext.ninf Ext.pinf x) self)
  | .boolean b => .ok (.DifferenceOfSignals (Const Ext.ninf Ext.pinf (if b then 1 else 0)) self)
  | .other ty => .error ⟨"-", ty, className self⟩

/-- `BaseSignal.__truediv__`: builds `DivisionOfSignals(self, coerced other)`. -/
def truediv (self : BaseSignal) (other : Operand) : Except TypeErr BaseSignal :=
  match other with
  | .sig s => .ok (.DivisionOfSignals self s)
  | .num x => .ok (.DivisionOfSignals self (Const Ext.ninf Ext.pinf x))
  | .boolean b => .ok (.DivisionOfSignals self (Const Ext.ninf Ext.pinf (if b then 1 else 0)))
  | .other ty => .error ⟨"/", className self, ty⟩

/-- `BaseSignal.__rtruediv__`: builds `DivisionOfSignals(coerced other, self)`,
keeping the reflected literal on the left; its `TypeError` interpolates the
types in the order `type(other) / type(self)`. -/
def rtruediv (self : BaseSignal) (other : Operand) : Except TypeErr BaseSignal :=
  match other with
  | .sig s => .ok (.DivisionOfSignals s self)
  | .num x => .ok (.DivisionOfSignals (Const Ext.ninf Ext.pinf x) self)
  | .boolean b => .ok (.DivisionOfSignals (Const Ext.ninf Ext.pinf (if b then 1 else 0)) self)
  | .other ty => .error ⟨"/", ty, className self⟩

/-- Evaluation equation for a windowed node. -/
theorem eval_signal (ts te : Ext) (f : Ext → ℚ) (t : ℚ) :
    eval (BaseSignal.Signal ts te f) t =
      if Ext.le ts (Ext.fin t) && Ext.lt (Ext.fin t) te then
        some (f (Ext.subFin t ts))
      else
        some 0 := rfl

/-- Evaluation equation for `SumOfSignals.__call__`. -/
theorem eval_sum (a b : BaseSignal) (t : ℚ) :
    eval (BaseSignal.SumOfSignals a b) t =
      match eval a t, eval b t with
      | some x, some y => some (x + y)
      | _, _ => none := rfl

/-- Evaluation equation for `DifferenceOfSignals.__call__`. -/
theorem eval_diff (a b : BaseSignal) (t : ℚ) :
    eval (BaseSignal.DifferenceOfSignals a b) t =
      match eval a t, eval b t with
      | some x, some y => some (x - y)
      | _, _ => none := rfl

/-- Evaluation equation for `ProductOfSignals.__call__`. -/
theorem eval_prod (a b : BaseSignal) (t : ℚ) :
    eval (BaseSignal.ProductOfSignals a b) t =
      match eval a t, eval b t with
      | some x, some y => some (x * y)
      | _, _ => none := rfl

/-- Evaluation equation for `DivisionOfSignals.__call__`. -/
theorem eval_quot (a b : BaseSignal) (t : ℚ) :
    eval (BaseSignal.DivisionOfSignals a b) t =
      match eval a t, eval b t with
      | some x, some y => if y = 0 then none else some (x / y)
      | _, _ => none := rfl

/-- A `Const` with the always-active window `(NINF, PINF)` evaluates to its
value at every finite time. -/
theorem eval_const_full (x t : ℚ) : eval (Const Ext.ninf Ext.pinf x) t = some x := rfl

/-- A `Const` whose `value` field is `0` evaluates to `0` at every time,
whatever its window: both branches of the gate return `0`. -/
theorem eval_const_zero (ts te : Ext) (t : ℚ) : eval (Const ts te 0) t = some 0 := by
  rw [Const, eval_signal]
  split <;> rfl

/-- C1: a windowed node with window `[t_start, t_end)` evaluated at `t`
returns its local rule applied to window-local time `t - t_start` whenever
`t_start <= t < t_end`, and exactly `0` otherwise; in particular `t = t_start`
is active (local time `0`) and `t = t_end` is inactive. -/
theorem windowed_gate_spec (ts te : Ext) (f : Ext → ℚ) (t : ℚ) :
    (Ext.le ts (Ext.fin t) = true → Ext.lt (Ext.fin t) te = true →
      eval (BaseSignal.Signal ts te f) t = some (f (Ext.subFin t ts)))
    ∧ (Ext.le ts (Ext.fin t) = false ∨ Ext.lt (Ext.fin t) te = false →
      eval (BaseSignal.Signal ts te f) t = some 0)
    ∧ (ts = Ext.fin t → Ext.lt (Ext.fin t) te = true →
      eval (BaseSignal.Signal ts te f) t = some (f (Ext.fin 0)))
    ∧ (te = Ext.fin t → eval (BaseSignal.Signal ts te f) t = some 0) := by
  refine ⟨?_, ?_, ?_, ?_⟩
  · intro h1 h2
    rw [eval_signal]
    simp [h1, h2]
  · intro h
    rw [eval_signal]
    rcases h with h | h <;> simp [h]
  · intro h h2
    subst h
    have h1 : Ext.le (Ext.fin t) (Ext.fin t) = true := by simp [Ext.le]
    rw [eval_signal]
    simp [h1, h2, Ext.subFin]
  · intro h
    subst h
    have h2 : Ext.lt (Ext.fin t) (Ext.fin t) = false := by simp [Ext.lt]
    rw [eval_signal]
    simp [h2]

/-- Witness for C1: window `[2, 5)` with constant local rule `7`, active at
`t = 2` (its start) and inactive at `t = 5` (its end). -/
theorem windowed_gate_spec_witness :
    eval (BaseSignal.Signal (Ext.fin 2) (Ext.fin 5) (fun _ => 7)) 2 = some 7
    ∧ eval (BaseSignal.Signal (Ext.fin 2) (Ext.fin 5) (fun _ => 7)) 5 = some 0 :=
  ⟨(windowed_gate_spec (Ext.fin 2) (Ext.fin 5) (fun _ => 7) 2).2.2.1 rfl
     (by norm_num [Ext.lt]),
   (windowed_gate_spec (Ext.fin 2) (Ext.fin 5) (fun _ => 7) 5).2.2.2 rfl⟩

/-- C2: `a + x` with a numeric literal `x` coerces the literal to
`Const(value=x)`, whose window is the always-active `(NINF, PINF)`, so the sum
evaluates to `a(t) + x` at every time `t` (exceptions from `a` propagating);
a signal operand passes through the coercion unchanged. -/
theorem literal_add_behavior (a b : BaseSignal) (x t : ℚ) :
    add a (Operand.num x) = Except.ok (BaseSignal.SumOfSignals a (Const Ext.ninf Ext.pinf x))
    ∧ add a (Operand.sig b) = Except.ok (BaseSignal.SumOfSignals a b)
    ∧ eval (BaseSignal.SumOfSignals a (Const Ext.ninf Ext.pinf x)) t
        = (eval a t).map (fun v => v + x) := by
  refine ⟨rfl, rfl, ?_⟩
  rw [eval_sum, eval_const_full]
  cases h : eval a t <;> rfl

/-- C3: the end-to-end scenario `a = Const(2)`, `b = Const(3)`, `s = a + b`.
Because the dataclass-generated initialiser is
`Const(t_start=NINF, t_end=PINF, value=0.0)`, the positional `2` and `3` bind
`t_start` and both leaves keep `value = 0.0`; the sum evaluates to `0`, not
`5`, at both `t = 0` and `t = 100`. -/
theorem const_positional_scenario :
    add (Const (Ext.fin 2) Ext.pinf 0) (Operand.sig (Const (Ext.fin 3) Ext.pinf 0))
      = Except.ok (BaseSignal.SumOfSignals (Const (Ext.fin 2) Ext.pinf 0)
          (Const (Ext.fin 3) Ext.pinf 0))
    ∧ eval (BaseSignal.SumOfSignals (Const (Ext.fin 2) Ext.pinf 0)
        (Const (Ext.fin 3) Ext.pinf 0)) 0 = some 0
    ∧ eval (BaseSignal.SumOfSignals (Const (Ext.fin 2) Ext.pinf 0)
        (Const (Ext.fin 3) Ext.pinf 0)) 100 = some 0 := by
  refine ⟨rfl, ?_, ?_⟩ <;>
    · rw [eval_sum, eval_const_zero, eval_const_zero]
      norm_num

/-- C4: the additive identity `(a + Const(0))(t) = a(t)` does hold — the
positional `Const(0)` is a leaf with `t_start = 0` and `value = 0.0`, which
evaluates to `0` at every time either way — but the multiplicative identity
fails: positional `Const(1)` binds `1` to `t_start`, keeps `value = 0.0`, and
so evaluates to `0` everywhere; `(a * Const(1))(0) = 0` while `a(0) = 2` for
the always-active constant-2 signal `a`. -/
theorem mul_identity_positional :
    (∀ (a : BaseSignal) (t : ℚ),
      eval (BaseSignal.SumOfSignals a (Const (Ext.fin 0) Ext.pinf 0)) t = eval a t)
    ∧ eval (BaseSignal.ProductOfSignals (Const Ext.ninf Ext.pinf 2)
        (Const (Ext.fin 1) Ext.pinf 0)) 0 = some 0
    ∧ eval (Const Ext.ninf Ext.pinf 2) 0 = some 2 := by
  refine ⟨?_, ?_, eval_const_full 2 0⟩
  · intro a t
    rw [eval_sum, eval_const_zero]
    cases h : eval a t <;> simp
  · rw [eval_prod, eval_const_full, eval_const_zero]
    norm_num

/-- C5: the reflected operators keep the literal on the left:
`__rsub__` builds `DifferenceOfSignals(Const(value=x), a)` and `__rtruediv__`
builds `DivisionOfSignals(Const(value=x), a)`, so `(x - a)(t) = x - a(t)` and,
whenever `a(t)` is a nonzero value, `(x / a)(t) = x / a(t)` (the division
policy raising on a zero denominator). -/
theorem reflected_literal_left (a : BaseSignal) (x t v : ℚ) :
    rsub a (Operand.num x)
      = Except.ok (BaseSignal.DifferenceOfSignals (Const Ext.ninf Ext.pinf x) a)
    ∧ rtruediv a (Operand.num x)
      = Except.ok (BaseSignal.DivisionOfSignals (Const Ext.ninf Ext.pinf x) a)
    ∧ eval (BaseSignal.DifferenceOfSignals (Const Ext.ninf Ext.pinf x) a) t
        = (eval a t).map (fun w => x - w)
    ∧ (eval a t = some v → v ≠ 0 →
        eval (BaseSignal.DivisionOfSignals (Const Ext.ninf Ext.pinf x) a) t
          = some (x / v)) := by
  refine ⟨rfl, rfl, ?_, ?_⟩
  · rw [eval_diff, eval_const_full]
    cases h : eval a t <;> rfl
  · intro h hv
    rw [eval_quot, eval_const_full, h]
    simp [hv]

/-- Witness for C5: `(5 / a)(0) = 5 / 2` for the always-active constant-2
signal `a`. -/
theorem reflected_literal_left_witness :
    eval (BaseSignal.DivisionOfSignals (Const Ext.ninf Ext.pinf 5)
      (Const Ext.ninf Ext.pinf 2)) 0 = some (5 / 2) :=
  (reflected_literal_left (Const Ext.ninf Ext.pinf 2) 5 0 2).2.2.2 rfl (by norm_num)

/-- C6 counterexample: evaluating `Const(value=1) / Const(value=0)` at `t = 0`
does not return a numeric result — Python scalar division raises
`ZeroDivisionError` on a zero denominator (modelled by `none`), rather than
producing an IEEE-754 signed infinity or NaN value. -/
theorem quotient_zero_counterexample :
    eval (BaseSignal.DivisionOfSignals (Const Ext.ninf Ext.pinf 1)
      (Const Ext.ninf Ext.pinf 0)) 0 = none := by
  rw [eval_quot, eval_const_full, eval_const_full]
  simp

/-- C6 amended: evaluating a Quotient node at a time where the denominator
operand evaluates to zero raises (`ZeroDivisionError` escaping the call,
modelled by `none`), for every numerator value. -/
theorem quotient_zero_denominator (a b : BaseSignal) (t x : ℚ)
    (ha : eval a t = some x) (hb : eval b t = some 0) :
    eval (BaseSignal.DivisionOfSignals a b) t = none := by
  rw [eval_quot, ha, hb]
  simp

/-- Witness for C6 amended: `Const(value=1) / Const(value=0)` raises at `t = 0`. -/
theorem quotient_zero_denominator_witness :
    eval (BaseSignal.DivisionOfSignals (Const Ext.ninf Ext.pinf 1)
      (Const Ext.ninf Ext.pinf 0)) 0 = none :=
  quotient_zero_denominator (Const Ext.ninf Ext.pinf 1) (Const Ext.ninf Ext.pinf 0)
    0 1 (eval_const_full 1 0) (eval_const_full 0 0)

/-- C7: every dunder combinator applied to an operand that is neither a
signal nor numeric returns a `TypeError` at construction time (no evaluation
is involved), whose data name the attempted operator and both operand types
in operand order — the reflected `__rsub__`/`__rtruediv__` put the foreign
operand's type on the left, and `__radd__`/`__rmul__` delegate to
`__add__`/`__mul__`. -/
theorem type_mismatch_construction (s : BaseSignal) (ty : String) :
    add s (Operand.other ty) = Except.error ⟨"+", className s, ty⟩
    ∧ sub s (Operand.other ty) = Except.error ⟨"-", className s, ty⟩
    ∧ mul s (Operand.other ty) = Except.error ⟨"*", className s, ty⟩
    ∧ truediv s (Operand.other ty) = Except.error ⟨"/", className s, ty⟩
    ∧ radd s (Operand.other ty) = Except.error ⟨"+", className s, ty⟩
    ∧ rsub s (Operand.other ty) = Except.error ⟨"-", ty, className s⟩
    ∧ rmul s (Operand.other ty) = Except.error ⟨"*", className s, ty⟩
    ∧ rtruediv s (Operand.other ty) = Except.error ⟨"/", ty, className s⟩ :=
  ⟨rfl, rfl, rfl, rfl, rfl, rfl, rfl, rfl⟩

/-- C8: when the batch evaluator returns a result list, it has the same
length as the timestamp list and its `i`-th element is the single-timestamp
evaluation at the `i`-th timestamp. -/
theorem eval_on_batch (s : BaseSignal) (ts rs : List ℚ) (h : eval_on s ts = some rs) :
    rs.length = ts.length
    ∧ ∀ (i : ℕ) (hi : i < ts.length) (hj : i < rs.length),
        eval s ts[i] = some rs[i] := by
  induction ts generalizing rs with
  | nil =>
    simp [eval_on] at h
    subst h
    refine ⟨rfl, ?_⟩
    intro i hi hj
    simp at hi
  | cons a as ih =>
    rw [eval_on] at h
    cases ha : eval s a with
    | none => rw [ha] at h; simp at h
    | some v =>
      cases hrest : eval_on s as with
      | none => rw [ha, hrest] at h; simp at h
      | some vs =>
        rw [ha, hrest] at h
        simp at h
        subst h
        obtain ⟨hlen, helem⟩ := ih vs hrest
        refine ⟨by simp [hlen], ?_⟩
        intro i hi hj
        cases i with
        | zero => simpa using ha
        | succ n =>
          simp only [List.getElem_cons_succ]
          exact helem n (by simpa using hi) (by simpa using hj)

/-- Witness for C8: the constant-5 signal batch-evaluated on `[0, 1, 2]`
yields `[5, 5, 5]`, of the same length, with element `0` matching the
single-timestamp evaluation. -/
theorem eval_on_batch_witness :
    ([(5 : ℚ), 5, 5]).length = ([(0 : ℚ), 1, 2]).length
    ∧ eval (Const Ext.ninf Ext.pinf 5) ([(0 : ℚ), 1, 2])[0] = some (([(5 : ℚ), 5, 5])[0]) :=
  ⟨(eval_on_batch (Const Ext.ninf Ext.pinf 5) [0, 1, 2] [5, 5, 5] rfl).1,
   (eval_on_batch (Const Ext.ninf Ext.pinf 5) [0, 1, 2] [5, 5, 5] rfl).2 0
     (by norm_num) (by norm_num)⟩

/-- C9: a reversed window (`t_start > t_end`) is not rejected — `Signal`
performs no window validation at construction — and the gate
`t_start <= t < t_end` can then never hold, so evaluation returns `0` at
every time. -/
theorem reversed_window_zero (ts te : Ext) (f : Ext → ℚ) (t : ℚ)
    (h : Ext.lt te ts = true) :
    eval (BaseSignal.Signal ts te f) t = some 0 := by
  have hgate : (Ext.le ts (Ext.fin t) && Ext.lt (Ext.fin t) te) = false := by
    cases ts <;> cases te <;> simp_all [Ext.le, Ext.lt]
    intro h1
    linarith
  rw [eval_signal, hgate]
  rfl

/-- Witness for C9: the reversed window `[5, 2)` yields `0` at `t = 3`, a
time inside the would-be interval `[2, 5)`. -/
theorem reversed_window_zero_witness :
    eval (BaseSignal.Signal (Ext.fin 5) (Ext.fin 2) (fun _ => 9)) 3 = some 0 :=
  reversed_window_zero (Ext.fin 5) (Ext.fin 2) (fun _ => 9) 3 (by norm_num [Ext.lt])

/-- C10: a `bool` operand passes the `isinstance(other, (float, int))` check
(in Python `bool` is a subtype of `int`), so every combinator accepts it
without raising and builds its composite with a `Const(value=other)` leaf on
the literal side, `True` contributing `1` and `False` contributing `0`;
that leaf evaluates to its value at every time. -/
theorem boolean_operands (s : BaseSignal) (b : Bool) :
    add s (Operand.boolean b)
      = Except.ok (BaseSignal.SumOfSignals s
          (Const Ext.ninf Ext.pinf (if b then 1 else 0)))
    ∧ sub s (Operand.boolean b)
      = Except.ok (BaseSignal.DifferenceOfSignals s
          (Const Ext.ninf Ext.pinf (if b then 1 else 0)))
    ∧ mul s (Operand.boolean b)
      = Except.ok (BaseSignal.ProductOfSignals s
          (Const Ext.ninf Ext.pinf (if b then 1 else 0)))
    ∧ truediv s (Operand.boolean b)
      = Except.ok (BaseSignal.DivisionOfSignals s
          (Const Ext.ninf Ext.pinf (if b then 1 else 0)))
    ∧ (∀ t : ℚ, eval (Const Ext.ninf Ext.pinf (if b then 1 else 0)) t
        = some (if b then 1 else 0)) :=
  ⟨rfl, rfl, rfl, rfl, fun t => eval_const_full (if b then 1 else 0) t⟩

end Signals
